import Mathlib

/-!
Shallow embedding of the two core components of the ghostty-web repository:
the `InputHandler` keyboard/clipboard encoder and the `CanvasRenderer`
dirty-aware cell renderer (both in `src/lib/renderer.ts`).  Pure logic is
translated function-for-function; DOM side effects (callback invocations,
`preventDefault`, `stopPropagation`, canvas paint calls, `console.warn`)
are made observable as explicit fields of result records.
-/

set_option maxRecDepth 4000

namespace GhosttyWeb

/-! ## Key codes (`Key` enum from `types.ts`, used via `KEY_MAP`)

The `Key` enum itself lives in the repository's `types.ts` (USB HID codes);
only its constructor names matter here, exactly the ones `KEY_MAP` uses. -/

inductive Key where
  | A | B | C | D | E | F | G | H | I | J | K | L | M
  | N | O | P | Q | R | S | T | U | V | W | X | Y | Z
  | ONE | TWO | THREE | FOUR | FIVE | SIX | SEVEN | EIGHT | NINE | ZERO
  | ENTER | ESCAPE | BACKSPACE | TAB | SPACE
  | MINUS | EQUAL | BRACKET_LEFT | BRACKET_RIGHT | BACKSLASH
  | SEMICOLON | QUOTE | GRAVE | COMMA | PERIOD | SLASH
  | CAPS_LOCK
  | F1 | F2 | F3 | F4 | F5 | F6 | F7 | F8 | F9 | F10 | F11 | F12
  | PRINT_SCREEN | SCROLL_LOCK | PAUSE
  | INSERT | HOME | PAGE_UP | DELETE | END | PAGE_DOWN
  | RIGHT | LEFT | DOWN | UP
  | NUM_LOCK | KP_DIVIDE | KP_MULTIPLY | KP_MINUS | KP_PLUS | KP_ENTER
  | KP_1 | KP_2 | KP_3 | KP_4 | KP_5 | KP_6 | KP_7 | KP_8 | KP_9 | KP_0
  | KP_PERIOD
  | NON_US_BACKSLASH | APPLICATION
  | F13 | F14 | F15 | F16 | F17 | F18 | F19 | F20 | F21 | F22 | F23 | F24
deriving DecidableEq

/-! ## Modifier set (`Mods` bit flags from `types.ts`) -/

structure Mods where
  shift : Bool := false
  ctrl : Bool := false
  alt : Bool := false
  super : Bool := false
deriving DecidableEq

def Mods.NONE : Mods := {}

def Mods.SHIFT : Mods := { shift := true }

inductive KeyAction where
  | PRESS | RELEASE | REPEAT
deriving DecidableEq

/-! ## Keyboard events -/

structure KeyboardEvent where
  code : String
  key : String
  ctrlKey : Bool := false
  altKey : Bool := false
  shiftKey : Bool := false
  metaKey : Bool := false

/-- Source `KEY_MAP` from `input-handler`: `KeyboardEvent.code` → USB HID `Key`. -/
def KEY_MAP : String → Option Key
  | "KeyA" => some .A
  | "KeyB" => some .B
  | "KeyC" => some .C
  | "KeyD" => some .D
  | "KeyE" => some .E
  | "KeyF" => some .F
  | "KeyG" => some .G
  | "KeyH" => some .H
  | "KeyI" => some .I
  | "KeyJ" => some .J
  | "KeyK" => some .K
  | "KeyL" => some .L
  | "KeyM" => some .M
  | "KeyN" => some .N
  | "KeyO" => some .O
  | "KeyP" => some .P
  | "KeyQ" => some .Q
  | "KeyR" => some .R
  | "KeyS" => some .S
  | "KeyT" => some .T
  | "KeyU" => some .U
  | "KeyV" => some .V
  | "KeyW" => some .W
  | "KeyX" => some .X
  | "KeyY" => some .Y
  | "KeyZ" => some .Z
  | "Digit1" => some .ONE
  | "Digit2" => some .TWO
  | "Digit3" => some .THREE
  | "Digit4" => some .FOUR
  | "Digit5" => some .FIVE
  | "Digit6" => some .SIX
  | "Digit7" => some .SEVEN
  | "Digit8" => some .EIGHT
  | "Digit9" => some .NINE
  | "Digit0" => some .ZERO
  | "Enter" => some .ENTER
  | "Escape" => some .ESCAPE
  | "Backspace" => some .BACKSPACE
  | "Tab" => some .TAB
  | "Space" => some .SPACE
  | "Minus" => some .MINUS
  | "Equal" => some .EQUAL
  | "BracketLeft" => some .BRACKET_LEFT
  | "BracketRight" => some .BRACKET_RIGHT
  | "Backslash" => some .BACKSLASH
  | "Semicolon" => some .SEMICOLON
  | "Quote" => some .QUOTE
  | "Backquote" => some .GRAVE
  | "Comma" => some .COMMA
  | "Period" => some .PERIOD
  | "Slash" => some .SLASH
  | "CapsLock" => some .CAPS_LOCK
  | "F1" => some .F1
  | "F2" => some .F2
  | "F3" => some .F3
  | "F4" => some .F4
  | "F5" => some .F5
  | "F6" => some .F6
  | "F7" => some .F7
  | "F8" => some .F8
  | "F9" => some .F9
  | "F10" => some .F10
  | "F11" => some .F11
  | "F12" => some .F12
  | "PrintScreen" => some .PRINT_SCREEN
  | "ScrollLock" => some .SCROLL_LOCK
  | "Pause" => some .PAUSE
  | "Insert" => some .INSERT
  | "Home" => some .HOME
  | "PageUp" => some .PAGE_UP
  | "Delete" => some .DELETE
  | "End" => some .END
  | "PageDown" => some .PAGE_DOWN
  | "ArrowRight" => some .RIGHT
  | "ArrowLeft" => some .LEFT
  | "ArrowDown" => some .DOWN
  | "ArrowUp" => some .UP
  | "NumLock" => some .NUM_LOCK
  | "NumpadDivide" => some .KP_DIVIDE
  | "NumpadMultiply" => some .KP_MULTIPLY
  | "NumpadSubtract" => some .KP_MINUS
  | "NumpadAdd" => some .KP_PLUS
  | "NumpadEnter" => some .KP_ENTER
  | "Numpad1" => some .KP_1
  | "Numpad2" => some .KP_2
  | "Numpad3" => some .KP_3
  | "Numpad4" => some .KP_4
  | "Numpad5" => some .KP_5
  | "Numpad6" => some .KP_6
  | "Numpad7" => some .KP_7
  | "Numpad8" => some .KP_8
  | "Numpad9" => some .KP_9
  | "Numpad0" => some .KP_0
  | "NumpadDecimal" => some .KP_PERIOD
  | "IntlBackslash" => some .NON_US_BACKSLASH
  | "ContextMenu" => some .APPLICATION
  | "F13" => some .F13
  | "F14" => some .F14
  | "F15" => some .F15
  | "F16" => some .F16
  | "F17" => some .F17
  | "F18" => some .F18
  | "F19" => some .F19
  | "F20" => some .F20
  | "F21" => some .F21
  | "F22" => some .F22
  | "F23" => some .F23
  | "F24" => some .F24
  | _ => none

/-- Source `mapKeyCode`: `KEY_MAP[code] ?? null`. -/
def mapKeyCode (code : String) : Option Key :=
  KEY_MAP code

/-- Source `extractModifiers`: builds the `Mods` flag union from the event. -/
def extractModifiers (ev : KeyboardEvent) : Mods :=
  { shift := ev.shiftKey, ctrl := ev.ctrlKey, alt := ev.altKey, super := ev.metaKey }

/-- JavaScript `String.prototype.length` (UTF-16 code units):
characters outside the Basic Multilingual Plane count twice. -/
def utf16Length (s : String) : Nat :=
  (s.data.map (fun c => if c.toNat < 65536 then 1 else 2)).sum

/-- JavaScript `charCodeAt(0)` compared with 128: true when the first
UTF-16 unit exists and is below 128 (ASCII). -/
def firstUnitIsAscii (s : String) : Bool :=
  match s.data with
  | [] => false
  | c :: _ => decide (c.toNat < 128)

/-- Source `isPrintableCharacter`: a printable single character with no special
modifiers; the AltGr combination (ctrl and alt together) is allowed. -/
def isPrintableCharacter (ev : KeyboardEvent) : Bool :=
  if ev.ctrlKey && !ev.altKey then false
  else if ev.altKey && !ev.ctrlKey then false
  else if ev.metaKey then false
  else decide (utf16Length ev.key = 1)

/-- The lower-cased literal hint passed to the advanced encoder:
`event.key.length === 1 && event.key.charCodeAt(0) < 128 ? event.key.toLowerCase() : undefined`. -/
def utf8Hint (key : String) : Option String :=
  if utf16Length key = 1 && firstUnitIsAscii key then some key.toLower else none

structure EncodeRequest where
  action : KeyAction
  key : Key
  mods : Mods
  utf8 : Option String

/-- Source `TextDecoder().decode` restricted to what the claims need: each byte
becomes one character (the advanced encoder is abstract, so only
emptiness of the decoded chunk is ever relevant). -/
def decodeBytes (bytes : List Nat) : String :=
  ⟨bytes.map Char.ofNat⟩

/-- The canonical single-sequence table inside `handleKeyDown` (the
`switch (key)` on `simpleOutput`). -/
def simpleOutput : Key → Option String
  | .ENTER => some "\r"
  | .TAB => some "\t"
  | .BACKSPACE => some "\x7F"
  | .ESCAPE => some "\x1B"
  | .UP => some "\x1B[A"
  | .DOWN => some "\x1B[B"
  | .RIGHT => some "\x1B[C"
  | .LEFT => some "\x1B[D"
  | .HOME => some "\x1B[H"
  | .END => some "\x1B[F"
  | .INSERT => some "\x1B[2~"
  | .DELETE => some "\x1B[3~"
  | .PAGE_UP => some "\x1B[5~"
  | .PAGE_DOWN => some "\x1B[6~"
  | .F1 => some "\x1BOP"
  | .F2 => some "\x1BOQ"
  | .F3 => some "\x1BOR"
  | .F4 => some "\x1BOS"
  | .F5 => some "\x1B[15~"
  | .F6 => some "\x1B[17~"
  | .F7 => some "\x1B[18~"
  | .F8 => some "\x1B[19~"
  | .F9 => some "\x1B[20~"
  | .F10 => some "\x1B[21~"
  | .F11 => some "\x1B[23~"
  | .F12 => some "\x1B[24~"
  | _ => none

/-- Ghost tag recording which branch of `handleKeyDown` fired. -/
inductive KeyPath where
  | disposed | custom | pasteChord | copyChord | printable
  | unmapped | simple | encoded | encodeFailed
deriving DecidableEq

/-- Observable effects of one `handleKeyDown` call: callback invocations,
default suppression, propagation stop, and `console.warn` count. -/
structure KeyDownResult where
  rawKeys : List String
  outputs : List String
  bells : Nat
  prevented : Bool
  stopped : Bool
  warnings : Nat
  path : KeyPath

/-- Source `InputHandler` instance state (the fields `handleKeyDown`,
`handlePaste` and `dispose` read or write). -/
structure HandlerState where
  isDisposed : Bool
  keydownAttached : Bool
  pasteAttached : Bool
  hasOnKey : Bool
  customKeyEventHandler : Option (KeyboardEvent → Bool)

/-- The tail of `handleKeyDown` after the literal-character fast path:
mapping via the static binding table, the canonical-sequence table for
no/shift-only modifiers, and the advanced-encoder fallback. -/
def encodeViaTable (raw : List String) (enc : EncodeRequest → Except Unit (List Nat))
    (ev : KeyboardEvent) : KeyDownResult :=
  match mapKeyCode ev.code with
  | none => ⟨raw, [], 0, false, false, 0, .unmapped⟩
  | some key =>
    let mods := extractModifiers ev
    let simple : Option String :=
      if mods = Mods.NONE ∨ mods = Mods.SHIFT then simpleOutput key else none
    match simple with
    | some s => ⟨raw, [s], 0, true, false, 0, .simple⟩
    | none =>
      match enc ⟨KeyAction.PRESS, key, mods, utf8Hint ev.key⟩ with
      | .ok bytes =>
        let data := decodeBytes bytes
        ⟨raw, if data.length > 0 then [data] else [], 0, true, true, 0, .encoded⟩
      | .error _ => ⟨raw, [], 0, false, false, 1, .encodeFailed⟩

/-- Source `handleKeyDown`, with the advanced encoder passed as a function that
may fail (`encoder.encode` may throw). -/
def handleKeyDown (st : HandlerState) (enc : EncodeRequest → Except Unit (List Nat))
    (ev : KeyboardEvent) : KeyDownResult :=
  if st.isDisposed then
    ⟨[], [], 0, false, false, 0, .disposed⟩
  else
    let raw := if st.hasOnKey then [ev.key] else []
    let handledByCustom :=
      match st.customKeyEventHandler with
      | some h => h ev
      | none => false
    if handledByCustom then
      ⟨raw, [], 0, true, false, 0, .custom⟩
    else if (ev.ctrlKey || ev.metaKey) && ev.code == "KeyV" then
      ⟨raw, [], 0, false, false, 0, .pasteChord⟩
    else if ev.metaKey && ev.code == "KeyC" then
      ⟨raw, [], 0, false, false, 0, .copyChord⟩
    else if isPrintableCharacter ev then
      ⟨raw, [ev.key], 0, true, false, 0, .printable⟩
    else
      encodeViaTable raw enc ev

/-- Clipboard payload of a paste event (`event.clipboardData`). -/
structure ClipboardData where
  plainText : String

/-- Source `clipboardData.getData(format)`. -/
def ClipboardData.getData (cd : ClipboardData) (format : String) : String :=
  if format = "text/plain" then cd.plainText else ""

structure PasteResult where
  outputs : List String
  bells : Nat
  prevented : Bool
  stopped : Bool
  warnings : Nat
deriving DecidableEq

/-- Source `handlePaste`; `clipboardData` is `none` when the event carries no
clipboard payload. -/
def handlePaste (st : HandlerState) (clipboardData : Option ClipboardData) : PasteResult :=
  if st.isDisposed then ⟨[], 0, false, false, 0⟩
  else
    match clipboardData with
    | none => ⟨[], 0, true, true, 1⟩
    | some cd =>
      let text := cd.getData "text/plain"
      if text = "" then ⟨[], 0, true, true, 1⟩
      else ⟨[text], 0, true, true, 0⟩

/-- Source `InputHandler.dispose`: removes listeners, marks disposed, idempotent. -/
def dispose (st : HandlerState) : HandlerState :=
  if st.isDisposed then st
  else { st with keydownAttached := false, pasteAttached := false, isDisposed := true }

/-- Source `InputHandler.isActive`. -/
def isActive (st : HandlerState) : Bool :=
  !st.isDisposed

/-! ## Renderer data model (`CanvasRenderer` and the buffer snapshot it reads)

Pixel quantities are modelled over `ℤ`: the font metrics are `Math.ceil`ed
integers in the source, and the device pixel ratio is taken integral (the
claims under verification never exercise a fractional ratio). -/

inductive CellColor where
  | default
  | palette (index : Nat)
  | rgb (r g b : Nat)

structure Cell where
  char : String
  fg : CellColor := .default
  bg : CellColor := .default
  bold : Bool := false
  italic : Bool := false
  underline : Bool := false
  strikethrough : Bool := false
  faint : Bool := false
  invisible : Bool := false
  inverse : Bool := false
  width : Nat := 1

structure CursorPos where
  x : Nat
  y : Nat
  visible : Bool

/-- The per-frame immutable snapshot `render` pulls from the external
`ScreenBuffer`: `getAllLines`, `getCursor`, `getDimensions`, `isDirty`. -/
structure BufferSnapshot where
  cols : Nat
  rows : Nat
  lines : List (List Cell)
  cursor : CursorPos
  dirty : Nat → Bool

structure FontMetrics where
  width : ℤ
  height : ℤ
  baseline : ℤ

/-- Renderer-owned mutable state (the fields `render`, `resize`, the blink
machinery and `dispose` touch). -/
structure RenderState where
  canvasWidth : ℤ
  canvasHeight : ℤ
  metrics : FontMetrics
  devicePixelRatio : ℤ
  cursorBlink : Bool
  cursorVisible : Bool
  cursorBlinkInterval : Option Nat
  lastCursorX : Nat
  lastCursorY : Nat

/-- Constructor state: `cursorVisible` starts true, the blink timer starts
exactly when the `cursorBlink` option is set. -/
def initRenderState (canvasW canvasH : ℤ) (metrics : FontMetrics) (dpr : ℤ)
    (blink : Bool) : RenderState :=
  { canvasWidth := canvasW
    canvasHeight := canvasH
    metrics := metrics
    devicePixelRatio := dpr
    cursorBlink := blink
    cursorVisible := true
    cursorBlinkInterval := if blink then some 0 else none
    lastCursorX := 0
    lastCursorY := 0 }

/-- Source `resize(cols, rows)`: scales the backing store by the device pixel
ratio (the background fill has no further observable state). -/
def resizeState (st : RenderState) (cols rows : Nat) : RenderState :=
  { st with
    canvasWidth := (cols : ℤ) * st.metrics.width * st.devicePixelRatio
    canvasHeight := (rows : ℤ) * st.metrics.height * st.devicePixelRatio }

/-- The surface-size check at the top of `render`:
`canvas.width === cols*metrics.width*dpr && canvas.height === rows*metrics.height*dpr`. -/
def dimsMatch (st : RenderState) (buf : BufferSnapshot) : Prop :=
  st.canvasWidth = (buf.cols : ℤ) * st.metrics.width * st.devicePixelRatio ∧
  st.canvasHeight = (buf.rows : ℤ) * st.metrics.height * st.devicePixelRatio

instance (st : RenderState) (buf : BufferSnapshot) : Decidable (dimsMatch st buf) :=
  inferInstanceAs (Decidable (And _ _))

/-- Did the cursor move since the previous frame (position comparison
against `lastCursorPosition`)? -/
def cursorMovedP (st : RenderState) (buf : BufferSnapshot) : Prop :=
  buf.cursor.x ≠ st.lastCursorX ∨ buf.cursor.y ≠ st.lastCursorY

instance (st : RenderState) (buf : BufferSnapshot) : Decidable (cursorMovedP st buf) :=
  inferInstanceAs (Decidable (Or _ _))

/-- Observable effects of one `render` call.  `repaints` lists, in call
order, the indices `y` at which `renderLine(lines[y], y, cols)` was
invoked — these are exactly the places the `lines` array is indexed. -/
structure RenderResult where
  state : RenderState
  repaints : List Nat
  resized : Bool
  cursorPainted : Bool
  clearDirtyCalled : Bool

/-- Source `render(buffer, forceAll)`, the core per-frame algorithm. -/
def render (st : RenderState) (buf : BufferSnapshot) (forceAll : Bool) : RenderResult :=
  let needsResize : Bool := decide (¬ dimsMatch st buf)
  let st1 := if needsResize then resizeState st buf.cols buf.rows else st
  let forceAll1 := forceAll || needsResize
  let cursorMoved : Bool := decide (cursorMovedP st buf)
  let cursorInvalidation : List Nat :=
    if cursorMoved || st.cursorBlink then
      (if !forceAll1 && !buf.dirty buf.cursor.y then [buf.cursor.y] else []) ++
      (if cursorMoved && decide (st.lastCursorY ≠ buf.cursor.y) then
        (if !forceAll1 && !buf.dirty st.lastCursorY then [st.lastCursorY] else [])
      else [])
    else []
  let lineRepaints := (List.range buf.lines.length).filter (fun y => forceAll1 || buf.dirty y)
  let cursorPainted := buf.cursor.visible && st1.cursorVisible
  let st2 := { st1 with lastCursorX := buf.cursor.x, lastCursorY := buf.cursor.y }
  { state := st2
    repaints := cursorInvalidation ++ lineRepaints
    resized := needsResize
    cursorPainted := cursorPainted
    clearDirtyCalled := !forceAll1 }

/-- Source `startCursorBlink`: installs the recurring ~530 ms timer. -/
def startCursorBlink (st : RenderState) : RenderState :=
  { st with cursorBlinkInterval := some 0 }

/-- Source `stopCursorBlink`: cancels the timer if present, then unconditionally
restores `cursorVisible := true`. -/
def stopCursorBlink (st : RenderState) : RenderState :=
  let st1 :=
    match st.cursorBlinkInterval with
    | some _ => { st with cursorBlinkInterval := none }
    | none => st
  { st1 with cursorVisible := true }

/-- Source `setCursorBlink(enabled)`. -/
def setCursorBlink (st : RenderState) (enabled : Bool) : RenderState :=
  if enabled && !st.cursorBlink then
    startCursorBlink { st with cursorBlink := true }
  else if !enabled && st.cursorBlink then
    stopCursorBlink { st with cursorBlink := false }
  else st

/-- Source `CanvasRenderer.dispose`: cancels the blink timer. -/
def disposeRenderer (st : RenderState) : RenderState :=
  stopCursorBlink st

/-- One firing of the blink interval callback; it can only fire while the
interval is installed (`clearInterval` cancels pending ticks). -/
def blinkTick (st : RenderState) : RenderState :=
  match st.cursorBlinkInterval with
  | some _ => { st with cursorVisible := !st.cursorVisible }
  | none => st

/-- The public renderer operations that touch the state the claims are
about (paint-only mutators such as `setTheme` and `setCursorStyle` leave
all of these fields unchanged). -/
inductive RendererOp where
  | startBlink
  | stopBlink
  | setBlink (enabled : Bool)
  | disposeOp
  | tick
  | doRender (buf : BufferSnapshot) (forceAll : Bool)
  | doResize (cols rows : Nat)

def applyOp (st : RenderState) : RendererOp → RenderState
  | .startBlink => startCursorBlink st
  | .stopBlink => stopCursorBlink st
  | .setBlink b => setCursorBlink st b
  | .disposeOp => disposeRenderer st
  | .tick => blinkTick st
  | .doRender buf f => (render st buf f).state
  | .doResize c r => resizeState st c r

/-- A sequence of `render` calls, pairing each frame's snapshot with the
frame's observable result. -/
def renderTrace (st : RenderState) :
    List (BufferSnapshot × Bool) → List (BufferSnapshot × RenderResult)
  | [] => []
  | (buf, f) :: rest =>
    let r := render st buf f
    (buf, r) :: renderTrace r.state rest

/-- The buffer's external contract: one line per reported row and a cursor
inside the reported dimensions. -/
def BufferContract (buf : BufferSnapshot) : Prop :=
  buf.lines.length = buf.rows ∧ buf.cursor.y < buf.rows

instance (buf : BufferSnapshot) : Decidable (BufferContract buf) :=
  inferInstanceAs (Decidable (And _ _))

/-- Renderer-side row invariant: whenever the stored canvas height encodes
some positive row count, the remembered cursor row lies below it. -/
def rowInv (st : RenderState) : Prop :=
  ∀ R : Nat, 1 ≤ R →
    st.canvasHeight = (R : ℤ) * st.metrics.height * st.devicePixelRatio →
    st.lastCursorY < R

/-- Blink-visibility invariant (claim C9): no active blink timer forces the
renderer-owned visibility flag to true. -/
def blinkVisibleInv (st : RenderState) : Prop :=
  st.cursorBlinkInterval = none → st.cursorVisible = true

/-! ## Concrete instances used by witnesses and counterexamples -/

/-- A freshly constructed, undisposed handler with no custom override and
no raw-key observer. -/
def liveHandler : HandlerState :=
  ⟨false, true, true, false, none⟩

/-- An advanced encoder that always succeeds with an empty byte sequence. -/
def encNull : EncodeRequest → Except Unit (List Nat) := fun _ => .ok []

/-- An advanced encoder that always throws. -/
def encFail : EncodeRequest → Except Unit (List Nat) := fun _ => .error ()

/-- Concrete 10×10 font metrics. -/
def fmTen : FontMetrics := ⟨10, 10, 8⟩

/-- An 80×24 clean buffer with the cursor on row 20. -/
def buf80x24 : BufferSnapshot :=
  ⟨80, 24, List.replicate 24 [], ⟨0, 20, true⟩, fun _ => false⟩

/-- An 80×10 clean buffer with the cursor on row 5. -/
def buf80x10 : BufferSnapshot :=
  ⟨80, 10, List.replicate 10 [], ⟨0, 5, true⟩, fun _ => false⟩

/-! ## Claim C5 -/

/-- C5: a keydown for ctrl+V or super+V on the physical V key, and for
super+C on the physical C key, produces no output chunk and does not
suppress the browser default (no `preventDefault`, no `stopPropagation`),
leaving the work to native paste and the external copy collaborator. -/
theorem chordPassthrough (st : HandlerState) (enc : EncodeRequest → Except Unit (List Nat))
    (ev : KeyboardEvent) (hlive : st.isDisposed = false)
    (hcustom : st.customKeyEventHandler = none)
    (hchord : ((ev.ctrlKey = true ∨ ev.metaKey = true) ∧ ev.code = "KeyV") ∨
      (ev.metaKey = true ∧ ev.code = "KeyC")) :
    (handleKeyDown st enc ev).outputs = [] ∧
      (handleKeyDown st enc ev).prevented = false ∧
      (handleKeyDown st enc ev).stopped = false := by
  rcases hchord with ⟨hm, hc⟩ | ⟨hm, hc⟩
  · rcases hm with hm | hm <;> simp [handleKeyDown, hlive, hcustom, hc, hm]
  · simp [handleKeyDown, hlive, hcustom, hc, hm]

/-- C5 witness: ctrl+V on the live handler is passed through untouched. -/
theorem chordPassthrough_witness :
    (handleKeyDown liveHandler encNull ⟨"KeyV", "v", true, false, false, false⟩).outputs = [] ∧
      (handleKeyDown liveHandler encNull ⟨"KeyV", "v", true, false, false, false⟩).prevented = false ∧
      (handleKeyDown liveHandler encNull ⟨"KeyV", "v", true, false, false, false⟩).stopped = false :=
  chordPassthrough liveHandler encNull _ rfl rfl (Or.inl ⟨Or.inl rfl, rfl⟩)

/-! ## Claim C6 -/

/-- C6: on every paste event delivered to a live handler the default is
suppressed; with no clipboard payload or an empty plain-text payload no
output is produced (a silent no-op); otherwise exactly one output chunk
equal verbatim to the plain-text payload is emitted, with no
bracketed-paste wrapping. -/
theorem pasteVerbatim (st : HandlerState) (cd : Option ClipboardData)
    (hlive : st.isDisposed = false) :
    (handlePaste st cd).prevented = true ∧
      (cd = none → (handlePaste st cd).outputs = []) ∧
      (∀ d, cd = some d →
        (d.plainText = "" → (handlePaste st cd).outputs = []) ∧
        (d.plainText ≠ "" → (handlePaste st cd).outputs = [d.plainText])) := by
  rcases cd with _ | d
  · simp [handlePaste, hlive]
  · by_cases he : d.plainText = "" <;>
      simp [handlePaste, hlive, ClipboardData.getData, he]

/-- C6 witness: pasting "Hello, World!" emits exactly that chunk; the
empty payload and the missing payload emit nothing. -/
theorem pasteVerbatim_witness :
    (handlePaste liveHandler (some ⟨"Hello, World!"⟩)).outputs = ["Hello, World!"] ∧
      (handlePaste liveHandler (some ⟨"Hello, World!"⟩)).prevented = true ∧
      (handlePaste liveHandler (some ⟨""⟩)).outputs = [] ∧
      (handlePaste liveHandler none).outputs = [] := by
  refine ⟨?_, ?_, ?_, ?_⟩
  · exact ((pasteVerbatim liveHandler (some ⟨"Hello, World!"⟩) rfl).2.2 _ rfl).2 (by decide)
  · exact (pasteVerbatim liveHandler (some ⟨"Hello, World!"⟩) rfl).1
  · exact ((pasteVerbatim liveHandler (some ⟨""⟩) rfl).2.2 _ rfl).1 rfl
  · exact (pasteVerbatim liveHandler none rfl).2.1 rfl

/-! ## Claim C7 -/

/-- C7: `dispose` is idempotent (a second call is the identity, and in this
total embedding it cannot throw), and a disposed handler produces no
callback invocation of any kind — no raw-key, output-data or bell
callback — for any further keydown or paste event. -/
theorem dispose_idempotent_silent (st : HandlerState)
    (enc : EncodeRequest → Except Unit (List Nat)) (ev : KeyboardEvent)
    (cd : Option ClipboardData) :
    dispose (dispose st) = dispose st ∧
      isActive (dispose st) = false ∧
      (handleKeyDown (dispose st) enc ev).rawKeys = [] ∧
      (handleKeyDown (dispose st) enc ev).outputs = [] ∧
      (handleKeyDown (dispose st) enc ev).bells = 0 ∧
      (handlePaste (dispose st) cd).outputs = [] ∧
      (handlePaste (dispose st) cd).bells = 0 := by
  have hd : (dispose st).isDisposed = true := by
    by_cases h : st.isDisposed <;> simp [dispose, h]
  refine ⟨?_, ?_, ?_⟩
  · by_cases h : st.isDisposed <;> simp [dispose, h]
  · simp [isActive, hd]
  · simp [handleKeyDown, handlePaste, hd]

/-! ## Claim C10 -/

/-- C10: when a keydown reaches the advanced-encoder path and the encoder
throws, the handler catches and logs the error, emits no output chunk, and
calls neither `preventDefault` nor `stopPropagation` — suppression happens
only after a successful encode — so the failure never crashes the input
path and the browser default stays unsuppressed. -/
theorem encoderFailureRecovered (st : HandlerState)
    (enc : EncodeRequest → Except Unit (List Nat)) (ev : KeyboardEvent) (k : Key)
    (hlive : st.isDisposed = false)
    (hcustom : st.customKeyEventHandler = none)
    (hpaste : ((ev.ctrlKey || ev.metaKey) && (ev.code == "KeyV")) = false)
    (hcopy : (ev.metaKey && (ev.code == "KeyC")) = false)
    (hprint : isPrintableCharacter ev = false)
    (hmap : mapKeyCode ev.code = some k)
    (hsimple : (if extractModifiers ev = Mods.NONE ∨ extractModifiers ev = Mods.SHIFT then
      simpleOutput k else none) = none)
    (henc : enc ⟨KeyAction.PRESS, k, extractModifiers ev, utf8Hint ev.key⟩ = .error ()) :
    (handleKeyDown st enc ev).path = KeyPath.encodeFailed ∧
      (handleKeyDown st enc ev).outputs = [] ∧
      (handleKeyDown st enc ev).prevented = false ∧
      (handleKeyDown st enc ev).stopped = false ∧
      (handleKeyDown st enc ev).warnings = 1 := by
  simp [handleKeyDown, encodeViaTable, hlive, hcustom, hpaste, hcopy, hprint, hmap,
    hsimple, henc]

/-- C10 witness: ctrl+F1 with a throwing encoder is logged and otherwise
ignored, leaving the default unsuppressed. -/
theorem encoderFailureRecovered_witness :
    (handleKeyDown liveHandler encFail ⟨"F1", "F1", true, false, false, false⟩).path =
        KeyPath.encodeFailed ∧
      (handleKeyDown liveHandler encFail ⟨"F1", "F1", true, false, false, false⟩).outputs = [] ∧
      (handleKeyDown liveHandler encFail ⟨"F1", "F1", true, false, false, false⟩).prevented = false ∧
      (handleKeyDown liveHandler encFail ⟨"F1", "F1", true, false, false, false⟩).stopped = false ∧
      (handleKeyDown liveHandler encFail ⟨"F1", "F1", true, false, false, false⟩).warnings = 1 :=
  encoderFailureRecovered liveHandler encFail _ Key.F1 rfl rfl (by decide) (by decide)
    (by decide) (by decide) (by decide) rfl

/-! ## Claim C4 -/

/-- The canonical-table cases named by claim C4: DOM `code`/`key` value
(identical strings for these keys) paired with the expected byte-exact
output. -/
def canonicalKeyCases : List (String × String) :=
  [("Enter", "\r"), ("Tab", "\t"), ("Escape", "\x1B"),
   ("ArrowUp", "\x1B[A"), ("ArrowDown", "\x1B[B"),
   ("ArrowRight", "\x1B[C"), ("ArrowLeft", "\x1B[D"),
   ("F1", "\x1BOP"), ("F2", "\x1BOQ"), ("F3", "\x1BOR"), ("F4", "\x1BOS"),
   ("F5", "\x1B[15~"), ("F6", "\x1B[17~"), ("F7", "\x1B[18~"), ("F8", "\x1B[19~"),
   ("F9", "\x1B[20~"), ("F10", "\x1B[21~"), ("F11", "\x1B[23~"), ("F12", "\x1B[24~")]

/-- C4: with no modifier or shift alone, the canonical table yields the
byte-exact single outputs — Enter `"\r"`, Tab `"\t"`, Escape 0x1B, the
arrows `ESC [ A/B/C/D` for up/down/right/left, F1–F4 `ESC O P/Q/R/S`, and
F5–F12 `ESC [ n ~` with n in 15,17,18,19,20,21,23,24 — each hit
suppressing default and emitting exactly that one chunk, then stopping. -/
theorem canonicalTableExact (st : HandlerState)
    (enc : EncodeRequest → Except Unit (List Nat)) (sh : Bool) (name out : String)
    (hlive : st.isDisposed = false)
    (hcustom : st.customKeyEventHandler = none)
    (hmem : (name, out) ∈ canonicalKeyCases) :
    (handleKeyDown st enc ⟨name, name, false, false, sh, false⟩).outputs = [out] ∧
      (handleKeyDown st enc ⟨name, name, false, false, sh, false⟩).prevented = true ∧
      (handleKeyDown st enc ⟨name, name, false, false, sh, false⟩).stopped = false ∧
      (handleKeyDown st enc ⟨name, name, false, false, sh, false⟩).path = KeyPath.simple := by
  obtain ⟨d, ka, pa, hk, ch⟩ := st
  dsimp only at hlive hcustom
  subst hlive
  subst hcustom
  fin_cases hmem <;> cases sh <;> exact ⟨rfl, rfl, rfl, rfl⟩

/-- C4 witness: Enter with shift held emits exactly `"\r"`. -/
theorem canonicalTableExact_witness :
    (handleKeyDown liveHandler encNull ⟨"Enter", "Enter", false, false, true, false⟩).outputs =
        ["\r"] ∧
      (handleKeyDown liveHandler encNull ⟨"Enter", "Enter", false, false, true, false⟩).prevented =
        true ∧
      (handleKeyDown liveHandler encNull ⟨"Enter", "Enter", false, false, true, false⟩).stopped =
        false ∧
      (handleKeyDown liveHandler encNull ⟨"Enter", "Enter", false, false, true, false⟩).path =
        KeyPath.simple :=
  canonicalTableExact liveHandler encNull true "Enter" "\r" rfl rfl (by decide)

/-! ## Claim C1 -/

/-- The post-fast-path branches never report the literal-character path. -/
theorem encodeViaTable_path_ne_printable (raw : List String)
    (enc : EncodeRequest → Except Unit (List Nat)) (ev : KeyboardEvent) :
    (encodeViaTable raw enc ev).path ≠ KeyPath.printable := by
  unfold encodeViaTable
  cases h : mapKeyCode ev.code with
  | none => simp
  | some k =>
    cases h2 : (if extractModifiers ev = Mods.NONE ∨ extractModifiers ev = Mods.SHIFT then
        simpleOutput k else none) with
    | none =>
      cases h3 : enc ⟨KeyAction.PRESS, k, extractModifiers ev, utf8Hint ev.key⟩ <;>
        simp [h2, h3]
    | some s => simp [h2]

/-- C1 (amended): on a live handler with no custom override, the
literal-character fast path fires iff the key value is a single character,
super is inactive, control and alt are either both inactive or both active
(the AltGr exception; shift alone remains allowed), and the event is not a
ctrl+V paste chord; on that path default is suppressed and exactly the
character is emitted as one chunk. -/
theorem printableFastPath (st : HandlerState)
    (enc : EncodeRequest → Except Unit (List Nat)) (ev : KeyboardEvent)
    (hlive : st.isDisposed = false)
    (hcustom : st.customKeyEventHandler = none) :
    ((handleKeyDown st enc ev).path = KeyPath.printable ↔
      (utf16Length ev.key = 1 ∧ ev.metaKey = false ∧ ev.ctrlKey = ev.altKey ∧
        ¬(ev.ctrlKey = true ∧ ev.code = "KeyV"))) ∧
    ((handleKeyDown st enc ev).path = KeyPath.printable →
      (handleKeyDown st enc ev).outputs = [ev.key] ∧
        (handleKeyDown st enc ev).prevented = true ∧
        (handleKeyDown st enc ev).stopped = false) := by
  obtain ⟨code, key, ct, al, sh, me⟩ := ev
  obtain ⟨d, ka, pa, hk, ch⟩ := st
  dsimp only at hlive hcustom
  subst hlive
  subst hcustom
  constructor <;>
  · cases ct <;> cases al <;> cases me <;>
      by_cases hV : code = "KeyV" <;>
      by_cases hC : code = "KeyC" <;>
      by_cases hkey : utf16Length key = 1 <;>
        simp [handleKeyDown, isPrintableCharacter, hV, hC, hkey,
          encodeViaTable_path_ne_printable]

/-- C1 witness: shift+A with no other modifier takes the fast path and
emits exactly "A" with default suppressed. -/
theorem printableFastPath_witness :
    (handleKeyDown liveHandler encNull ⟨"KeyA", "A", false, false, true, false⟩).path =
        KeyPath.printable ∧
      (handleKeyDown liveHandler encNull ⟨"KeyA", "A", false, false, true, false⟩).outputs =
        ["A"] ∧
      (handleKeyDown liveHandler encNull ⟨"KeyA", "A", false, false, true, false⟩).prevented =
        true := by
  have h := printableFastPath liveHandler encNull ⟨"KeyA", "A", false, false, true, false⟩ rfl rfl
  have hp : (handleKeyDown liveHandler encNull ⟨"KeyA", "A", false, false, true, false⟩).path =
      KeyPath.printable :=
    h.1.mpr (by refine ⟨by decide, rfl, rfl, ?_⟩; rintro ⟨h1, _⟩; cases h1)
  obtain ⟨ho, hprev, _⟩ := h.2 hp
  exact ⟨hp, ho, hprev⟩

/-- C1 counterexample: a keydown with both control and alt active (and a
single-character key value) is handled by the literal fast path, refuting
the claim that any event with control or alt active never takes it. -/
theorem printableFastPath_counterexample :
    (⟨"KeyA", "a", true, true, false, false⟩ : KeyboardEvent).ctrlKey = true ∧
      (⟨"KeyA", "a", true, true, false, false⟩ : KeyboardEvent).altKey = true ∧
      (handleKeyDown liveHandler encNull ⟨"KeyA", "a", true, true, false, false⟩).path =
        KeyPath.printable ∧
      (handleKeyDown liveHandler encNull ⟨"KeyA", "a", true, true, false, false⟩).outputs =
        ["a"] ∧
      (handleKeyDown liveHandler encNull ⟨"KeyA", "a", true, true, false, false⟩).prevented =
        true := by
  decide

/-! ## Claim C3 -/

/-- C3 (amended): `clearDirty` is signalled at the end of the frame iff the
`forceAll` argument was false and the surface dimensions already matched
(a dimension mismatch promotes the frame to a forced-all pass, which also
skips `clearDirty`); when `forceAll` is true, `clearDirty` is never called
and every line is still repainted. -/
theorem clearDirtyPolicy (st : RenderState) (buf : BufferSnapshot) (f : Bool) :
    ((render st buf f).clearDirtyCalled = true ↔ (f = false ∧ dimsMatch st buf)) ∧
      (f = true → (render st buf f).clearDirtyCalled = false ∧
        ∀ y, y < buf.lines.length → y ∈ (render st buf f).repaints) := by
  constructor
  · cases f <;> by_cases h : dimsMatch st buf <;> simp [render, h]
  · rintro rfl
    refine ⟨by simp [render], ?_⟩
    intro y hy
    simp [render, List.mem_append, List.mem_filter, List.mem_range, hy]

/-- C3 witness: with matching dimensions and `forceAll = false` the dirty
bits are cleared; with `forceAll = true` they are left untouched while
every one of the 24 lines is repainted. -/
theorem clearDirtyPolicy_witness :
    (render (initRenderState 800 240 fmTen 1 false) buf80x24 false).clearDirtyCalled = true ∧
      (render (initRenderState 800 240 fmTen 1 false) buf80x24 true).clearDirtyCalled = false ∧
      (∀ y, y < buf80x24.lines.length →
        y ∈ (render (initRenderState 800 240 fmTen 1 false) buf80x24 true).repaints) := by
  refine ⟨?_, ?_, ?_⟩
  · exact (clearDirtyPolicy (initRenderState 800 240 fmTen 1 false) buf80x24 false).1.mpr
      ⟨rfl, by decide⟩
  · exact ((clearDirtyPolicy (initRenderState 800 240 fmTen 1 false) buf80x24 true).2 rfl).1
  · exact ((clearDirtyPolicy (initRenderState 800 240 fmTen 1 false) buf80x24 true).2 rfl).2

/-- C3 counterexample: with mismatched surface dimensions and the
`forceAll` argument false, the frame is promoted to a forced pass and
`clearDirty` is not called, refuting "if the forceAll argument is false
the renderer signals the buffer to clear its dirty bits". -/
theorem clearDirtyPolicy_counterexample :
    ¬ dimsMatch (initRenderState 800 240 fmTen 1 false) buf80x10 ∧
      (render (initRenderState 800 240 fmTen 1 false) buf80x10 false).clearDirtyCalled = false := by
  decide

/-! ## Claim C2 -/

set_option maxHeartbeats 2000000 in
/-- C2: when the surface dimensions already match, `render(buf, false)`
repaints exactly the dirty lines plus the cursor's current and previous
lines when the cursor moved since the previous frame or blinking is
enabled, and repaints nothing else. -/
theorem renderRepaintsExactly (st : RenderState) (buf : BufferSnapshot) (y : Nat)
    (hdims : dimsMatch st buf)
    (hlen : buf.lines.length = buf.rows)
    (hcur : buf.cursor.y < buf.rows)
    (hlast : st.lastCursorY < buf.rows)
    (hy : y < buf.rows) :
    (y ∈ (render st buf false).repaints ↔
      buf.dirty y = true ∨
        ((cursorMovedP st buf ∨ st.cursorBlink = true) ∧
          (y = buf.cursor.y ∨ y = st.lastCursorY))) := by
  by_cases hmv : cursorMovedP st buf <;>
    cases hb : st.cursorBlink <;>
    by_cases hyc : y = buf.cursor.y <;>
    by_cases hyl : y = st.lastCursorY <;>
    cases hdy : buf.dirty y <;>
    by_cases hne : st.lastCursorY = buf.cursor.y <;>
      simp_all [render, cursorMovedP, hdims, List.mem_append, List.mem_filter,
        List.mem_range, hlen]

/-- C2 witness: on a clean 80×24 buffer whose cursor moved from row 0 to
row 20, exactly rows 20 and 0 are repainted. -/
theorem renderRepaintsExactly_witness :
    (20 ∈ (render (initRenderState 800 240 fmTen 1 false) buf80x24 false).repaints) ∧
      (0 ∈ (render (initRenderState 800 240 fmTen 1 false) buf80x24 false).repaints) ∧
      ¬(7 ∈ (render (initRenderState 800 240 fmTen 1 false) buf80x24 false).repaints) := by
  refine ⟨?_, ?_, ?_⟩
  · exact (renderRepaintsExactly (initRenderState 800 240 fmTen 1 false) buf80x24 20
      (by decide) (by decide) (by decide) (by decide) (by decide)).mpr
      (Or.inr ⟨Or.inl (Or.inr (by decide)), Or.inl rfl⟩)
  · exact (renderRepaintsExactly (initRenderState 800 240 fmTen 1 false) buf80x24 0
      (by decide) (by decide) (by decide) (by decide) (by decide)).mpr
      (Or.inr ⟨Or.inl (Or.inr (by decide)), Or.inr rfl⟩)
  · intro hmem
    have h := (renderRepaintsExactly (initRenderState 800 240 fmTen 1 false) buf80x24 7
      (by decide) (by decide) (by decide) (by decide) (by decide)).mp hmem
    revert h
    decide

/-! ## Claim C9 -/

/-- Every public operation (and the timer tick) preserves the
blink-visibility invariant. -/
theorem applyOp_preserves_blinkInv (st : RenderState) (op : RendererOp)
    (h : blinkVisibleInv st) : blinkVisibleInv (applyOp st op) := by
  cases op with
  | startBlink => intro hn; simp [applyOp, startCursorBlink] at hn
  | stopBlink =>
    intro _
    cases hI : st.cursorBlinkInterval <;> simp [applyOp, stopCursorBlink, hI]
  | setBlink b =>
    intro hn
    cases b <;> cases hcb : st.cursorBlink <;>
      simp_all [applyOp, setCursorBlink, startCursorBlink, stopCursorBlink, blinkVisibleInv]
  | disposeOp =>
    intro _
    cases hI : st.cursorBlinkInterval <;>
      simp [applyOp, disposeRenderer, stopCursorBlink, hI]
  | tick =>
    intro hn
    cases hI : st.cursorBlinkInterval with
    | none =>
      have hv := h hI
      simp_all [applyOp, blinkTick, hI]
    | some t => simp [applyOp, blinkTick, hI] at hn
  | doRender buf f =>
    intro hn
    by_cases hdm : dimsMatch st buf <;>
      simp_all [applyOp, render, resizeState, blinkVisibleInv]
  | doResize c r =>
    intro hn
    simp only [applyOp, resizeState] at hn ⊢
    exact h hn

/-- The invariant propagates along any operation sequence. -/
theorem foldl_preserves_blinkInv (ops : List RendererOp) :
    ∀ st : RenderState, blinkVisibleInv st → blinkVisibleInv (ops.foldl applyOp st) := by
  induction ops with
  | nil => intro st h; exact h
  | cons op rest ih =>
    intro st h
    exact ih _ (applyOp_preserves_blinkInv st op h)

/-- C9: after any sequence of renderer operations starting at
construction, whenever no blink timer is active the renderer-owned
cursor-visibility flag is true; consequently, in such a state the cursor
is painted exactly when the buffer reports it visible, so it can never be
stuck invisible with blinking off or after disposal. -/
theorem blinkVisibility (ops : List RendererOp) (cw ch : ℤ) (fm : FontMetrics)
    (dpr : ℤ) (blink : Bool) :
    blinkVisibleInv (ops.foldl applyOp (initRenderState cw ch fm dpr blink)) ∧
      (∀ st : RenderState, ∀ buf : BufferSnapshot, ∀ f : Bool,
        blinkVisibleInv st → st.cursorBlinkInterval = none →
        (render st buf f).cursorPainted = buf.cursor.visible) := by
  constructor
  · apply foldl_preserves_blinkInv
    intro hn
    cases blink <;> simp_all [initRenderState]
  · intro st buf f h hn
    have hv : st.cursorVisible = true := h hn
    by_cases hdm : dimsMatch st buf <;>
      cases hb : buf.cursor.visible <;>
      simp_all [render, resizeState]

/-- C9 witness: enable blinking, let the timer tick, disable blinking —
the timer is gone and the cursor-visibility flag is back to true. -/
theorem blinkVisibility_witness :
    (([RendererOp.setBlink true, RendererOp.tick, RendererOp.setBlink false].foldl applyOp
      (initRenderState 800 240 fmTen 1 false)).cursorVisible = true) ∧
      (render (initRenderState 800 240 fmTen 1 false) buf80x24 false).cursorPainted =
        buf80x24.cursor.visible := by
  constructor
  · exact (blinkVisibility [RendererOp.setBlink true, RendererOp.tick, RendererOp.setBlink false]
      800 240 fmTen 1 false).1 (by decide)
  · exact (blinkVisibility [] 800 240 fmTen 1 false).2
      (initRenderState 800 240 fmTen 1 false) buf80x24 false (fun _ => rfl) rfl

/-! ## Claim C8 -/

/-- After any `render` call, the metrics and the device pixel ratio are
unchanged, the remembered cursor row is this frame's cursor row, and the
stored canvas height encodes this frame's row count. -/
theorem render_state_fields (st : RenderState) (buf : BufferSnapshot) (f : Bool) :
    (render st buf f).state.metrics = st.metrics ∧
      (render st buf f).state.devicePixelRatio = st.devicePixelRatio ∧
      (render st buf f).state.lastCursorY = buf.cursor.y ∧
      (render st buf f).state.canvasHeight =
        (buf.rows : ℤ) * st.metrics.height * st.devicePixelRatio := by
  by_cases h : dimsMatch st buf
  · refine ⟨by simp [render, h], by simp [render, h], by simp [render, h], ?_⟩
    simpa [render, h] using h.2
  · simp [render, resizeState, h]

/-- One `render` call re-establishes the row invariant (positive metrics,
positive device pixel ratio, buffer contract). -/
theorem rowInv_after_render (st : RenderState) (buf : BufferSnapshot) (f : Bool)
    (hH : 0 < st.metrics.height) (hD : 0 < st.devicePixelRatio)
    (hc : BufferContract buf) : rowInv ((render st buf f).state) := by
  intro R hR hEq
  obtain ⟨hm, hd, hl, hch⟩ := render_state_fields st buf f
  rw [hm, hd, hch] at hEq
  have hcancel : (buf.rows : ℤ) = (R : ℤ) := by
    have hne : st.metrics.height * st.devicePixelRatio ≠ 0 :=
      ne_of_gt (mul_pos hH hD)
    have h1 : (buf.rows : ℤ) * (st.metrics.height * st.devicePixelRatio) =
        (R : ℤ) * (st.metrics.height * st.devicePixelRatio) := by
      rw [← mul_assoc, ← mul_assoc]; exact hEq
    exact mul_right_cancel₀ hne h1
  have hrows : buf.rows = R := Nat.cast_injective hcancel
  rw [hl, ← hrows]
  exact hc.2

/-- The indices at which `render` dereferences the `lines` array are
within bounds, given the row invariant and the buffer contract. -/
theorem render_repaints_inBounds (st : RenderState) (buf : BufferSnapshot) (f : Bool)
    (hInv : rowInv st) (hc : BufferContract buf) :
    ∀ i ∈ (render st buf f).repaints, i < buf.lines.length := by
  obtain ⟨hlen, hcur⟩ := hc
  intro i hi
  rw [hlen]
  simp only [render] at hi
  rcases List.mem_append.mp hi with h1 | h2
  · -- cursor-invalidation part
    split at h1
    case isFalse => simp at h1
    case isTrue =>
      rcases List.mem_append.mp h1 with hA | hB
      · split at hA
        case isFalse => simp at hA
        case isTrue =>
          rw [List.mem_singleton.mp hA]
          exact hcur
      · split at hB
        case isFalse => simp at hB
        case isTrue h3 =>
          split at hB
          case isFalse => simp at hB
          case isTrue h4 =>
            rw [List.mem_singleton.mp hB]
            -- the inner guard carries ¬forceAll, hence matched dimensions
            have hff : (f || decide (¬ dimsMatch st buf)) = false := by
              rcases Bool.and_eq_true .. |>.mp h4 with ⟨hnot, _⟩
              simpa using hnot
            have hdm : dimsMatch st buf := by
              rcases Bool.or_eq_false_iff.mp hff with ⟨_, hnd⟩
              simpa using of_decide_eq_false hnd
            have hrows1 : 1 ≤ buf.rows := Nat.one_le_iff_ne_zero.mpr (by omega)
            exact hInv buf.rows hrows1 hdm.2
  · -- main loop
    rw [← hlen]
    exact List.mem_range.mp (List.mem_filter.mp h2).1

/-- Safety along a whole trace of `render` calls. -/
theorem renderTrace_inBounds (frames : List (BufferSnapshot × Bool)) :
    ∀ st : RenderState, 0 < st.metrics.height → 0 < st.devicePixelRatio →
      rowInv st → (∀ p ∈ frames, BufferContract p.1) →
      ∀ pr ∈ renderTrace st frames, ∀ i ∈ pr.2.repaints, i < pr.1.lines.length := by
  induction frames with
  | nil => intro st _ _ _ _ pr hpr; simp [renderTrace] at hpr
  | cons hd tl ih =>
    intro st hH hD hInv hc pr hpr
    obtain ⟨buf, f⟩ := hd
    simp only [renderTrace, List.mem_cons] at hpr
    rcases hpr with rfl | hpr
    · exact render_repaints_inBounds st buf f hInv (hc (buf, f) (List.mem_cons_self _ _))
    · obtain ⟨hm, hd2, _, _⟩ := render_state_fields st buf f
      exact ih (render st buf f).state (by rw [hm]; exact hH) (by rw [hd2]; exact hD)
        (rowInv_after_render st buf f hH hD (hc (buf, f) (List.mem_cons_self _ _)))
        (fun p hp => hc p (List.mem_cons_of_mem _ hp)) pr hpr

/-- C8 (amended): for every sequence of `render` calls from construction —
the canvas resized only by `render` itself, metrics and device pixel ratio
positive and unchanged between frames — in which every frame's buffer
keeps its external contract, the unguarded `lines[cursor.y]` and
`lines[lastCursorPosition.y]` accesses in the cursor-invalidation path are
within bounds, including on frames that follow a shrink of the row count
(the shrink is caught by the dimension mismatch, which forces a full pass
that skips the unguarded path). -/
theorem cursorLineAccessInBounds (cw ch : ℤ) (fm : FontMetrics) (dpr : ℤ) (blink : Bool)
    (frames : List (BufferSnapshot × Bool))
    (hH : 0 < fm.height) (hD : 0 < dpr)
    (hc : ∀ p ∈ frames, BufferContract p.1) :
    ∀ pr ∈ renderTrace (initRenderState cw ch fm dpr blink) frames,
      ∀ i ∈ pr.2.repaints, i < pr.1.lines.length := by
  apply renderTrace_inBounds frames _ hH hD _ hc
  intro R hR _
  simp only [initRenderState]
  omega

/-- C8 witness: a 24-row frame followed directly by a 10-row frame (the
shrink detected by `render` itself) keeps every access in bounds. -/
theorem cursorLineAccessInBounds_witness :
    ((renderTrace (initRenderState 800 240 fmTen 1 false)
        [(buf80x24, false), (buf80x10, false)]).all
      (fun pr => pr.2.repaints.all (fun i => decide (i < pr.1.lines.length)))) = true := by
  have h := cursorLineAccessInBounds 800 240 fmTen 1 false
    [(buf80x24, false), (buf80x10, false)] (by decide) (by decide) (by decide)
  decide

/-- C8 counterexample: the claim quantifies over all public renderer
operations, and `resize` is public.  Render a 24-row buffer (cursor on
row 20), let the caller invoke `resize(80, 10)` directly, then render a
contract-satisfying 10-row buffer without `forceAll`: the canvas already
matches, so the cursor-invalidation path dereferences
`lines[lastCursorPosition.y] = lines[20]` on a 10-line array. -/
theorem cursorLineAccessInBounds_counterexample :
    BufferContract buf80x24 ∧ BufferContract buf80x10 ∧
      20 ∈ (render (resizeState (render (initRenderState 800 240 fmTen 1 false)
        buf80x24 false).state 80 10) buf80x10 false).repaints ∧
      ¬(20 < buf80x10.lines.length) := by
  decide

end GhosttyWeb
